import Mathlib

/-!
# Load / Turvo shipment adapter

A shallow embedding of the three handlers of the repository

* `api/loads.go`        (namespace `Api`),
* `api/loads/index.go`  (namespace `ApiIndex`),
* `backend/main.go`     (namespace `Backend`),

restricted to the part that transforms data: normalising a decoded shipment
record into a `Load`, building the outbound creation payload, and resolving a
display identifier to the internal identifier in the delete path.  HTTP
transport, token handling and the clock are collaborators and appear only as
inputs.
-/

set_option autoImplicit false

/-! ## Go runtime notions shared by the three handlers -/

namespace Go

/-- A `float64` produced by `encoding/json`.  The handlers never compute with
it; they only print it, so a value is represented by the two texts that `fmt`
produces for it. -/
structure Float64 where
  /-- Text of `fmt.Sprintf("%.0f", x)`. -/
  fmt0f : String
  /-- Text of `fmt.Sprintf("%v", x)`. -/
  fmtV : String
  deriving DecidableEq

/-- A Go slice as far as the handlers observe it: `none` is the nil slice of
`var xs []T`, `some l` a non-nil slice with elements `l`. -/
abbrev Slice (α : Type) := Option (List α)

/-- Elements of a slice (`range` over a nil slice visits nothing). -/
def Slice.elems {α : Type} (s : Slice α) : List α := s.getD []

/-- Builtin `append(s, x)`: the result is never nil. -/
def Slice.push {α : Type} (s : Slice α) (x : α) : Slice α := some (Slice.elems s ++ [x])

/-- Value of `fmt.Sprintf("%d", n)` for an `int`. -/
def sprintD (n : Int) : String := toString n

end Go

/-! ## `api/loads.go` -/

namespace Api

/-- A value stored in the field `ID interface{}` by `encoding/json`. -/
inductive AnyValue where
  /-- The nil interface: the key is missing or is JSON `null`. -/
  | null
  /-- A JSON boolean. -/
  | bool (b : Bool)
  /-- A JSON number, decoded to `float64`. -/
  | number (x : Go.Float64)
  /-- A JSON string. -/
  | string (s : String)
  /-- A JSON array or object; `text` is the text `fmt` prints for it with `%v`. -/
  | composite (text : String)
  deriving DecidableEq

/-- Value of `fmt.Sprintf("%v", v)`. -/
def sprintV : AnyValue → String
  | .null => "<nil>"
  | .bool true => "true"
  | .bool false => "false"
  | .number x => x.fmtV
  | .string s => s
  | .composite text => text

structure Load where
  ID : String
  NumericID : String
  Origin : String
  Destination : String
  Customer : String
  Carrier : String
  Status : String
  CreatedAt : String
  deriving DecidableEq

structure Title where
  DisplayID : String
  deriving DecidableEq

structure ProjectFields where
  Title : Title
  ShipmentID : Int
  deriving DecidableEq

structure Lane where
  Start : String
  End : String
  deriving DecidableEq

structure Customer where
  Name : String
  deriving DecidableEq

structure CustomerOrder where
  Customer : Customer
  deriving DecidableEq

structure ContributorUser where
  Name : String
  deriving DecidableEq

structure ContributorTitle where
  Value : String
  deriving DecidableEq

structure Contributor where
  ContributorUser : ContributorUser
  Title : ContributorTitle
  deriving DecidableEq

structure Status where
  Description : String
  deriving DecidableEq

structure Details where
  Lane : Lane
  CustomerOrders : List CustomerOrder
  Contributors : List Contributor
  Status : Status
  Date : String
  deriving DecidableEq

/-- The struct `TurvoShipment` after decoding; a key missing from the JSON
leaves the zero value of its field. -/
structure TurvoShipment where
  ID : AnyValue
  ProjectFields : ProjectFields
  Details : Details
  deriving DecidableEq

/-- The zero value of `TurvoShipment`: what decoding `{}` leaves. -/
def TurvoShipment.zero : TurvoShipment :=
  { ID := .null
    ProjectFields := { Title := { DisplayID := "" }, ShipmentID := 0 }
    Details :=
      { Lane := { Start := "", End := "" }
        CustomerOrders := []
        Contributors := []
        Status := { Description := "" }
        Date := "" } }

/-- The customer step of `handleGetLoads`:
`if len(CustomerOrders) > 0 { load.Customer = CustomerOrders[0].Customer.Name }`. -/
def setCustomer (orders : List CustomerOrder) (load : Load) : Load :=
  match orders with
  | [] => load
  | first :: _ => { load with Customer := first.Customer.Name }

/-- The contributor loop of `handleGetLoads`: the first contributor whose title
value is `"Broker"` sets the carrier and the loop breaks. -/
def setCarrier : List Contributor → Load → Load
  | [], load => load
  | contributor :: rest, load =>
    if contributor.Title.Value = "Broker" then
      { load with Carrier := contributor.ContributorUser.Name }
    else
      setCarrier rest load

/-- The body of the loop of `handleGetLoads` for one shipment. -/
def normalize (shipment : TurvoShipment) : Load :=
  let load : Load :=
    { ID := shipment.ProjectFields.Title.DisplayID
      NumericID := Go.sprintD shipment.ProjectFields.ShipmentID
      Origin := shipment.Details.Lane.Start
      Destination := shipment.Details.Lane.End
      Customer := ""
      Carrier := ""
      Status := shipment.Details.Status.Description
      CreatedAt := shipment.Details.Date }
  let load := setCustomer shipment.Details.CustomerOrders load
  setCarrier shipment.Details.Contributors load

/-- The loop of `handleGetLoads` from a given accumulator:
`for _, shipment := range shipments { ...; loads = append(loads, load) }`. -/
def getLoadsLoop : List TurvoShipment → Go.Slice Load → Go.Slice Load
  | [], loads => loads
  | shipment :: rest, loads => getLoadsLoop rest (Go.Slice.push loads (normalize shipment))

/-- The slice that `handleGetLoads` encodes: `var loads []Load` followed by the loop. -/
def handleGetLoads (shipments : List TurvoShipment) : Go.Slice Load :=
  getLoadsLoop shipments none

/-- The search loop of `handleDeleteLoad`: `var numericId string`, then the
first shipment whose display id equals the request sets it and breaks. -/
def findNumericId (displayId : String) : List TurvoShipment → String
  | [] => ""
  | shipment :: rest =>
    if shipment.ProjectFields.Title.DisplayID = displayId then
      sprintV shipment.ID
    else
      findNumericId displayId rest

/-- Outcome of `handleDeleteLoad` up to the point where the delete is issued. -/
inductive Resolution where
  /-- The handler answers 400 with this message; it fetches no listing and
  issues no delete. -/
  | badRequest (message : String)
  /-- The handler answers 404 with this message and issues no delete. -/
  | notFound (message : String)
  /-- The handler goes on to delete `/api/shipments/<numericId>`. -/
  | found (numericId : String)
  deriving DecidableEq

/-- The resolution of `handleDeleteLoad`: the guard `if displayId == ""` on the
request, then, on the listing the handler fetches, the search loop and the
guard `if numericId == ""`. -/
def resolve (displayId : String) (shipments : List TurvoShipment) : Resolution :=
  if displayId = "" then
    .badRequest "ID parameter required"
  else
    let numericId := findNumericId displayId shipments
    if numericId = "" then
      .notFound ("Shipment not found for displayId: " ++ displayId)
    else
      .found numericId

/-- The record of the end-to-end scenario: internal id `"99"`, display id `"LD-7"`. -/
def scenarioShipment : TurvoShipment :=
  { ID := .string "99"
    ProjectFields := { Title := { DisplayID := "LD-7" }, ShipmentID := 0 }
    Details :=
      { Lane := { Start := "Dallas, TX", End := "Reno, NV" }
        CustomerOrders := [{ Customer := { Name := "Acme" } }]
        Contributors :=
          [{ ContributorUser := { Name := "SwiftCarrier" }, Title := { Value := "Broker" } }]
        Status := { Description := "In Transit" }
        Date := "" } }

end Api

/-! ## Text helpers of the Go standard library used by `api/loads/index.go` -/

namespace Go

/-- Split a character sequence at every occurrence of `sep`; a sequence with
`n` separators gives `n + 1` pieces. -/
def splitChars (sep : Char) : List Char → List (List Char)
  | [] => [[]]
  | c :: cs =>
    if c = sep then
      [] :: splitChars sep cs
    else
      match splitChars sep cs with
      | [] => [[c]]
      | piece :: pieces => (c :: piece) :: pieces

/-- The function `strings.Split(s, sep)` for a separator of one character. -/
def Split (s : String) (sep : Char) : List String :=
  (splitChars sep s.data).map String.mk

/-- The predicate `unicode.IsSpace`: the Unicode White_Space property. -/
def IsSpace (r : Char) : Bool :=
  let n := r.toNat
  (0x09 ≤ n && n ≤ 0x0D) || n == 0x20 || n == 0x85 || n == 0xA0 || n == 0x1680 ||
    (0x2000 ≤ n && n ≤ 0x200A) || n == 0x2028 || n == 0x2029 || n == 0x202F ||
    n == 0x205F || n == 0x3000

/-- Remove the leading and the trailing white space of a character sequence. -/
def trimSpaceChars (cs : List Char) : List Char :=
  ((cs.dropWhile IsSpace).reverse.dropWhile IsSpace).reverse

/-- The function `strings.TrimSpace`. -/
def TrimSpace (s : String) : String :=
  String.mk (trimSpaceChars s.data)

end Go

/-! ## `api/loads/index.go` -/

namespace ApiIndex

structure Load where
  ID : String
  Origin : String
  Destination : String
  Customer : String
  Carrier : String
  Status : String
  CreatedAt : String
  deriving DecidableEq

structure Contributor where
  /-- Go field `Type`. -/
  Type_ : String
  Name : String
  deriving DecidableEq

structure Location where
  City : String
  State : String
  deriving DecidableEq

structure Stop where
  /-- Go field `Type`. -/
  Type_ : String
  Location : Location
  deriving DecidableEq

structure Details where
  Contributors : List Contributor
  Stops : List Stop
  deriving DecidableEq

structure TurvoShipment where
  ID : String
  Details : Details
  Status : String
  CreatedAt : String
  deriving DecidableEq

/-- The zero value of `TurvoShipment`: what decoding `{}` leaves. -/
def TurvoShipment.zero : TurvoShipment :=
  { ID := "", Details := { Contributors := [], Stops := [] }, Status := "", CreatedAt := "" }

/-- The stop loop of `handleGetLoads`; it has no `break`, every stop is visited. -/
def setStops : List Stop → Load → Load
  | [], load => load
  | stop :: rest, load =>
    let location := stop.Location.City ++ ", " ++ stop.Location.State
    if stop.Type_ = "pickup" then
      setStops rest { load with Origin := location }
    else if stop.Type_ = "delivery" then
      setStops rest { load with Destination := location }
    else
      setStops rest load

/-- The contributor loop of `handleGetLoads`; it has no `break` either. -/
def setContributors : List Contributor → Load → Load
  | [], load => load
  | contributor :: rest, load =>
    if contributor.Type_ = "customer" then
      setContributors rest { load with Customer := contributor.Name }
    else if contributor.Type_ = "carrier" then
      setContributors rest { load with Carrier := contributor.Name }
    else
      setContributors rest load

/-- The body of the loop of `handleGetLoads` for one shipment. -/
def normalize (shipment : TurvoShipment) : Load :=
  let load : Load :=
    { ID := shipment.ID
      Origin := ""
      Destination := ""
      Customer := ""
      Carrier := ""
      Status := shipment.Status
      CreatedAt := shipment.CreatedAt }
  let load := setStops shipment.Details.Stops load
  setContributors shipment.Details.Contributors load

/-- The loop of `handleGetLoads` from a given accumulator. -/
def getLoadsLoop : List TurvoShipment → Go.Slice Load → Go.Slice Load
  | [], loads => loads
  | shipment :: rest, loads => getLoadsLoop rest (Go.Slice.push loads (normalize shipment))

/-- The slice that `handleGetLoads` encodes: `var loads []Load` followed by the loop. -/
def handleGetLoads (shipments : List TurvoShipment) : Go.Slice Load :=
  getLoadsLoop shipments none

/-- One entry of `"stops"` in the outbound `shipmentData`. -/
structure StopData where
  type : String
  city : String
  state : String
  deriving DecidableEq

/-- One entry of `"contributors"` in the outbound `shipmentData`. -/
structure ContributorData where
  type : String
  name : String
  deriving DecidableEq

/-- The map literal `shipmentData` of `handleCreateLoad`. -/
structure ShipmentData where
  stops : List StopData
  contributors : List ContributorData
  status : String
  createdAt : String
  deriving DecidableEq

/-- The `"location"` literal for one endpoint: segment 0 of the comma split is
the city, the trimmed segment 1 is the state.  Indexing past the end of the
split panics (`none`). -/
def splitLocation (location : String) : Option (String × String) :=
  match (Go.Split location ',')[0]?, (Go.Split location ',')[1]? with
  | some city, some state => some (city, Go.TrimSpace state)
  | _, _ => none

/-- The construction of `shipmentData` in `handleCreateLoad`; `now` is the text of
`time.Now().Format(time.RFC3339)`.  `none`: the handler panics with an index
out of range and sends nothing. -/
def buildShipmentData (load : Load) (now : String) : Option ShipmentData :=
  match splitLocation load.Origin, splitLocation load.Destination with
  | some (pickupCity, pickupState), some (deliveryCity, deliveryState) =>
    some
      { stops :=
          [ { type := "pickup", city := pickupCity, state := pickupState },
            { type := "delivery", city := deliveryCity, state := deliveryState } ]
        contributors :=
          [ { type := "customer", name := load.Customer },
            { type := "carrier", name := load.Carrier } ]
        status := "active"
        createdAt := now }
  | _, _ => none

end ApiIndex

/-! ## The outbound creation payload of `api/loads.go` and `backend/main.go`

Both handlers build the same `map[string]interface{}` literal; its keys are
fixed, so it is represented by a record with one field per key. -/

namespace Turvo

/-- The literal under `"startDate"` and `"endDate"`. -/
structure DateTime where
  date : String
  timeZone : String
  deriving DecidableEq

/-- The literal under `"lane"`; `end_` is the key `"end"`. -/
structure Lane where
  start : String
  end_ : String
  deriving DecidableEq

/-- The literals under `"unit"` and `"itemCategory"`. -/
structure KeyValue where
  key : String
  value : String
  deriving DecidableEq

/-- One entry of `"items"`. -/
structure Item where
  name : String
  description : String
  qty : Int
  quantity : Int
  unit : KeyValue
  itemCategory : KeyValue
  deriving DecidableEq

/-- The literal under `"customer"`. -/
structure CustomerRef where
  name : String
  id : String
  deriving DecidableEq

/-- One entry of `"customerOrder"`. -/
structure CustomerOrder where
  customer : CustomerRef
  items : List Item
  deriving DecidableEq

/-- One entry of `"carrierOrder"`, a `map[string]interface{}`; the handlers build none. -/
abbrev CarrierOrder := List (String × String)

/-- The map literal `payload`. -/
structure Payload where
  ltlShipment : Bool
  startDate : DateTime
  endDate : DateTime
  lane : Lane
  customerOrder : List CustomerOrder
  carrierOrder : List CarrierOrder
  deriving DecidableEq

end Turvo

namespace Api

/-- The construction of `payload` in `handleCreateLoad` of `api/loads.go`.
`startText` is the text of `time.Now().Add(24 * time.Hour).Format(time.RFC3339)`
and `endText` that of `time.Now().Add(48 * time.Hour).Format(time.RFC3339)`. -/
def buildPayload (load : Load) (startText endText : String) : Turvo.Payload :=
  { ltlShipment := false
    startDate := { date := startText, timeZone := "America/New_York" }
    endDate := { date := endText, timeZone := "America/New_York" }
    lane := { start := load.Origin, end_ := load.Destination }
    customerOrder :=
      [ { customer := { name := load.Customer, id := load.Customer }
          items :=
            [ { name := "General Freight"
                description := "General freight"
                qty := 1
                quantity := 1
                unit := { key := "6000", value := "Pieces" }
                itemCategory := { key := "22300", value := "Other" } } ] } ]
    carrierOrder := [] }

end Api

/-! ## `backend/main.go` -/

namespace Backend

/-- A value of type `interface{}` as `encoding/json` decodes it: `null` is the
nil interface, an `object` is a `map[string]interface{}` given by its entries
(the first entry of a key is the one the map holds). -/
inductive JSON where
  | null
  | bool (b : Bool)
  | number (x : Go.Float64)
  | string (s : String)
  | array (items : List JSON)
  | object (entries : List (String × JSON))

/-- The entries of a `map[string]interface{}`. -/
abbrev Fields := List (String × JSON)

/-- Map indexing `m[key]`: a missing key gives the nil interface. -/
def index (m : Fields) (key : String) : JSON :=
  match m.lookup key with
  | some v => v
  | none => .null

/-- Checked assertion `v.(map[string]interface{})`. -/
def JSON.asObject : JSON → Option Fields
  | .object entries => some entries
  | _ => none

/-- Checked assertion `v.([]interface{})`. -/
def JSON.asArray : JSON → Option (List JSON)
  | .array items => some items
  | _ => none

/-- Checked assertion `v.(string)`. -/
def JSON.asString : JSON → Option String
  | .string s => some s
  | _ => none

/-- Checked assertion `v.(float64)`. -/
def JSON.asFloat64 : JSON → Option Go.Float64
  | .number x => some x
  | _ => none

structure Customer where
  Name : String
  deriving DecidableEq

structure Location where
  Name : String
  City : String
  State : String
  Country : String
  deriving DecidableEq

structure Broker where
  Name : String
  deriving DecidableEq

structure Specifications where
  TotalWeight : Go.Float64
  NumCommodities : Int
  RouteMiles : Go.Float64
  deriving DecidableEq

structure Load where
  ExternalTMSLoadID : String
  FreightLoadID : String
  Status : String
  Customer : Customer
  Pickup : Location
  Consignee : Location
  Broker : Broker
  Specifications : Specifications
  deriving DecidableEq

/-- The `float64` zero. -/
def zeroFloat : Go.Float64 := { fmt0f := "0", fmtV := "0" }

/-- The composite literal `Location{City: city}`. -/
def locationOfCity (city : String) : Location :=
  { Name := "", City := city, State := "", Country := "" }

/-- The block "Extract customer from customer_orders" of `listLoads`. -/
def customerFromOrders (details : Fields) (customer : Customer) : Customer :=
  match (index details "customer_orders").asArray with
  | some (first :: _) =>
    match first.asObject with
    | some firstOrder =>
      match (index firstOrder "customer").asObject with
      | some customerObj =>
        match (index customerObj "name").asString with
        | some name => { customer with Name := name }
        | none => customer
      | none => customer
    | none => customer
  | _ => customer

/-- The body of the contributor loop of `listLoads` for one contributor. -/
def brokerStep (broker : Broker) (contrib : JSON) : Broker :=
  match contrib.asObject with
  | some c =>
    match (index c "contributorUser").asObject with
    | some contributorUser =>
      match (index contributorUser "name").asString with
      | some name =>
        match (index c "title").asObject with
        | some title =>
          match (index title "value").asString with
          | some role => if role = "Broker" then { broker with Name := name } else broker
          | none => broker
        | none => broker
      | none => broker
    | none => broker
  | none => broker

/-- The block "Extract broker from contributors" of `listLoads`: the loop has no
`break`, every contributor is visited. -/
def brokerFromContributors (details : Fields) (broker : Broker) : Broker :=
  match (index details "contributors").asArray with
  | some contributors => contributors.foldl brokerStep broker
  | none => broker

/-- The block "Fallback: try projectFields.title.customer" of `listLoads`. -/
def customerFallback (s : Fields) (customer : Customer) : Customer :=
  if customer.Name = "Unknown" then
    match (index s "projectFields").asObject with
    | some projectFields =>
      match (index projectFields "title").asObject with
      | some title =>
        match (index title "customer").asArray with
        | some (first :: _) =>
          match first.asObject with
          | some firstCustomer =>
            match (index firstCustomer "name").asString with
            | some name => { customer with Name := name }
            | none => customer
          | none => customer
        | _ => customer
      | none => customer
    | none => customer
  else
    customer

/-- The reads of `projectFields.route.start` and `projectFields.route.end`. -/
def routeOf (s : Fields) : String × String :=
  match (index s "projectFields").asObject with
  | some projectFields =>
    match (index projectFields "route").asObject with
    | some route =>
      let pickup :=
        match (index route "start").asString with
        | some start => start
        | none => "Unknown"
      let delivery :=
        match (index route "end").asString with
        | some end_ => end_
        | none => "Unknown"
      (pickup, delivery)
    | none => ("Unknown", "Unknown")
  | none => ("Unknown", "Unknown")

/-- The read of `projectFields.status.description`. -/
def statusOf (s : Fields) : String :=
  match (index s "projectFields").asObject with
  | some projectFields =>
    match (index projectFields "status").asObject with
    | some statusObj =>
      match (index statusObj "description").asString with
      | some desc => desc
      | none => "Unknown"
    | none => "Unknown"
  | none => "Unknown"

/-- The body of the loop of `listLoads` for one element of the listing.  The two
unchecked assertions `shipment.(map[string]interface{})` and
`s["id"].(float64)` panic when they fail: the result is then `none`. -/
def normalize (shipment : JSON) : Option Load :=
  match shipment.asObject with
  | none => none
  | some s =>
    match (index s "id").asFloat64 with
    | none => none
    | some idValue =>
      let id := idValue.fmt0f
      let customer : Customer := { Name := "Unknown" }
      let broker : Broker := { Name := "Unknown" }
      let (customer, broker) :=
        match (index s "details").asObject with
        | some details => (customerFromOrders details customer, brokerFromContributors details broker)
        | none => (customer, broker)
      let customer := customerFallback s customer
      let (pickup, delivery) := routeOf s
      let status := statusOf s
      some
        { ExternalTMSLoadID := id
          FreightLoadID := ""
          Status := status
          Customer := customer
          Pickup := locationOfCity pickup
          Consignee := locationOfCity delivery
          Broker := broker
          Specifications :=
            { TotalWeight := zeroFloat, NumCommodities := 0, RouteMiles := zeroFloat } }

/-- The loop of `listLoads` from a given accumulator; a panic in one element
ends the handler (`none`). -/
def listLoop : List JSON → Go.Slice Load → Option (Go.Slice Load)
  | [], loads => some loads
  | shipment :: rest, loads =>
    match normalize shipment with
    | none => none
    | some load => listLoop rest (Go.Slice.push loads load)

/-- The value under `"loads"` in the answer of `listLoads`.  `allShipments` is
`turvoResponse["shipments"]` when that is an array and the nil slice otherwise;
`loads` starts as `make([]Load, 0)`. -/
def listLoads (turvoResponse : Fields) : Option (Go.Slice Load) :=
  let allShipments : List JSON :=
    match (index turvoResponse "shipments").asArray with
    | some directShipments => directShipments
    | none => []
  listLoop allShipments (some [])

structure CreateLoadRequest where
  Customer : String
  Pickup : String
  PickupState : String
  PickupCountry : String
  Delivery : String
  DeliveryState : String
  DeliveryCountry : String
  deriving DecidableEq

/-- The construction of `payload` in `createLoad`. -/
def buildPayload (req : CreateLoadRequest) : Turvo.Payload :=
  { ltlShipment := false
    startDate := { date := "2025-09-05T08:00:00Z", timeZone := "America/New_York" }
    endDate := { date := "2025-09-06T17:00:00Z", timeZone := "America/New_York" }
    lane :=
      { start := req.Pickup ++ ", " ++ req.PickupState ++ ", " ++ req.PickupCountry
        end_ := req.Delivery ++ ", " ++ req.DeliveryState ++ ", " ++ req.DeliveryCountry }
    customerOrder :=
      [ { customer := { name := req.Customer, id := req.Customer }
          items :=
            [ { name := "General Freight"
                description := "General freight"
                qty := 1
                quantity := 1
                unit := { key := "6000", value := "Pieces" }
                itemCategory := { key := "22300", value := "Other" } } ] } ]
    carrierOrder := [] }

end Backend

/-! ## Counterexample inputs -/

namespace Api

/-- A listing record with display id `"LD-7"` whose top-level id is the empty string. -/
def emptyIdShipment : TurvoShipment :=
  { TurvoShipment.zero with
    ID := .string ""
    ProjectFields := { Title := { DisplayID := "LD-7" }, ShipmentID := 0 } }

end Api

namespace Backend

/-- The answer `{"shipments":[{"id":"A"},{"id":"B"},{"id":"C"}]}`: three records
whose ids are JSON strings. -/
def stringIdResponse : Fields :=
  [ ("shipments",
      .array
        [ .object [("id", .string "A")],
          .object [("id", .string "B")],
          .object [("id", .string "C")] ]) ]

/-- The ids `1, 2, 3` as decoded numbers. -/
def numericIdResponse : Fields :=
  [ ("shipments",
      .array
        [ .object [("id", .number { fmt0f := "1", fmtV := "1" })],
          .object [("id", .number { fmt0f := "2", fmtV := "2" })],
          .object [("id", .number { fmt0f := "3", fmtV := "3" })] ]) ]

end Backend

namespace ApiIndex

/-- A Load whose origin has four comma-separated segments. -/
def fourSegmentLoad : Load :=
  { ID := "", Origin := "Dallas, TX, USA, Earth", Destination := "Reno, NV",
    Customer := "Acme", Carrier := "SwiftCarrier", Status := "", CreatedAt := "" }

/-- A Load whose origin has the three segments of `"City, State, Country"`. -/
def threeSegmentLoad : Load :=
  { ID := "", Origin := "Dallas, TX, USA", Destination := "Reno, NV",
    Customer := "Acme", Carrier := "SwiftCarrier", Status := "", CreatedAt := "" }

/-- A shipment with two pickup stops followed by two delivery stops. -/
def twoPickupsShipment : TurvoShipment :=
  { TurvoShipment.zero with
    Details :=
      { Contributors := []
        Stops :=
          [ { Type_ := "pickup", Location := { City := "Dallas", State := "TX" } },
            { Type_ := "pickup", Location := { City := "Austin", State := "TX" } },
            { Type_ := "delivery", Location := { City := "Reno", State := "NV" } },
            { Type_ := "delivery", Location := { City := "Elko", State := "NV" } } ] } }

/-- A shipment with two contributors of type `"carrier"`. -/
def twoCarriersShipment : TurvoShipment :=
  { TurvoShipment.zero with
    Details :=
      { Contributors :=
          [ { Type_ := "carrier", Name := "First" }, { Type_ := "carrier", Name := "Second" } ]
        Stops := [] } }

end ApiIndex

namespace Api

/-- A shipment with two contributors titled `"Broker"`. -/
def twoBrokersShipment : TurvoShipment :=
  { TurvoShipment.zero with
    Details :=
      { TurvoShipment.zero.Details with
        Contributors :=
          [ { ContributorUser := { Name := "First" }, Title := { Value := "Broker" } },
            { ContributorUser := { Name := "Second" }, Title := { Value := "Broker" } } ] } }

end Api

namespace Backend

/-- The record `{"id": 7, "details": {"contributors": [c1, c2]}}` where `c1` is
`{"contributorUser": {"name": "First"}, "title": {"value": "Broker"}}` and `c2`
the same with the name `"Second"`. -/
def twoBrokersRecord : Fields :=
  [ ("id", .number { fmt0f := "7", fmtV := "7" }),
    ("details",
      .object
        [ ("contributors",
            .array
              [ .object
                  [ ("contributorUser", .object [("name", .string "First")]),
                    ("title", .object [("value", .string "Broker")]) ],
                .object
                  [ ("contributorUser", .object [("name", .string "Second")]),
                    ("title", .object [("value", .string "Broker")]) ] ]) ]) ]

/-- The record `{"id": 7}`: no customer path is available. -/
def noCustomerRecord : JSON :=
  .object [("id", .number { fmt0f := "7", fmtV := "7" })]

/-- The record `{"id": 7, "details": {"customer_orders": [{"customer": {"name": ""}}]},
"projectFields": {"title": {"customer": [{"name": "Acme"}]}}}`: path (1) gives the
empty string, the project-level path gives `"Acme"`. -/
def emptyOrderNameRecord : JSON :=
  .object
    [ ("id", .number { fmt0f := "7", fmtV := "7" }),
      ("details",
        .object [("customer_orders", .array [.object [("customer", .object [("name", .string "")])]])]),
      ("projectFields",
        .object [("title", .object [("customer", .array [.object [("name", .string "Acme")]])])]) ]

/-- The record `{"id": 7, "projectFields": {"title": {"customer": [{"name": "Acme"}]}}}`:
only the project-level path is available. -/
def projectOnlyRecord : Fields :=
  [ ("id", .number { fmt0f := "7", fmtV := "7" }),
    ("projectFields",
      .object [("title", .object [("customer", .array [.object [("name", .string "Acme")]])])]) ]

/-- Path (1) of the customer chain in the spec's words: the name of the customer
of the first entry of the customer-orders list (`details.customer_orders`). -/
def ordersCustomerName (s : Fields) : Option String :=
  (index s "details").asObject.bind fun details =>
  (index details "customer_orders").asArray.bind fun customerOrders =>
  customerOrders.head?.bind fun first =>
  first.asObject.bind fun firstOrder =>
  (index firstOrder "customer").asObject.bind fun customerObj =>
  (index customerObj "name").asString

/-- Path (3) of the customer chain in the spec's words: the name of the first
entry of the project-level title/customer list (`projectFields.title.customer`). -/
def projectCustomerName (s : Fields) : Option String :=
  (index s "projectFields").asObject.bind fun projectFields =>
  (index projectFields "title").asObject.bind fun title =>
  (index title "customer").asArray.bind fun customers =>
  customers.head?.bind fun first =>
  first.asObject.bind fun firstCustomer =>
  (index firstCustomer "name").asString

end Backend

namespace Backend

/-- The contributors list of a record in the spec's words: the array under
`details.contributors`, and no contributor when it is absent. -/
def contributorsOf (s : Fields) : List JSON :=
  match (index s "details").asObject with
  | some details =>
    match (index details "contributors").asArray with
    | some contributors => contributors
    | none => []
  | none => []

/-- The name a contributor offers as carrier in the spec's words: the string
under `contributorUser.name` of a contributor whose `title.value` is exactly
`"Broker"`. -/
def brokerNameOf (contrib : JSON) : Option String :=
  contrib.asObject.bind fun c =>
  (index c "contributorUser").asObject.bind fun contributorUser =>
  (index contributorUser "name").asString.bind fun name =>
  (index c "title").asObject.bind fun title =>
  (index title "value").asString.bind fun role =>
  if role = "Broker" then some name else none

end Backend

/-! ## The create response and the encoding of the list answer -/

namespace Go

/-- Whether `json.NewEncoder(w).Encode(s)` writes the text `null`: it does so for
the nil slice, and writes a JSON array (`[]` when there is no element) for every
other slice. -/
def Slice.encodesAsNull {α : Type} (s : Slice α) : Bool := s.isNone

end Go

namespace Api

/-- The decoded create response `createdShipment`, a `map[string]interface{}`
given by its entries (the first entry of a key is the one the map holds).  A
body that is not a JSON object leaves the nil map, which has no entry. -/
abbrev CreatedShipment := List (String × AnyValue)

/-- The end of `handleCreateLoad` in `api/loads.go`, after the status check: the
comma-ok index `createdShipment["id"]` decides the id, then status and
creation time are set.  `unix` is `time.Now().Unix()` and `now` the text of
`time.Now().Format(time.RFC3339)`. -/
def overlayCreated (load : Load) (createdShipment : CreatedShipment) (unix : Int)
    (now : String) : Load :=
  let load : Load :=
    match createdShipment.lookup "id" with
    | some id => { load with ID := sprintV id }
    | none => { load with ID := "temp-" ++ Go.sprintD unix }
  { load with Status := "active", CreatedAt := now }

/-- The Load that `handleCreateLoad` of `api/loads.go` encodes once the
collaborator has answered with `statusCode`; `none`: the handler answers with
the collaborator's error instead. -/
def createAnswer (load : Load) (statusCode : Int) (createdShipment : CreatedShipment)
    (unix : Int) (now : String) : Option Load :=
  if statusCode ≠ 200 ∧ statusCode ≠ 201 then
    none
  else
    some (overlayCreated load createdShipment unix now)

/-- A creation request as the client sends it: no id yet. -/
def requestLoad : Load :=
  { ID := "", NumericID := "", Origin := "Dallas, TX", Destination := "Reno, NV",
    Customer := "Acme", Carrier := "SwiftCarrier", Status := "", CreatedAt := "" }

/-- The record of the scenario with its keys where the claim writes them:
`id`, `title`, `lane`, `customer_orders`, `contributors` and `status` all at top
level.  The struct tags of `TurvoShipment` read only the top-level keys `id`,
`projectFields` and `details`, so decoding keeps the id and drops the rest. -/
def flatScenarioShipment : TurvoShipment :=
  { TurvoShipment.zero with ID := .string "99" }

/-- A listing record without display id whose top-level id is `"5"`. -/
def noDisplayIdShipment : TurvoShipment :=
  { TurvoShipment.zero with ID := .string "5" }

/-- A listing record with display id `"LD-7"` and no top-level id at all. -/
def absentIdShipment : TurvoShipment :=
  { TurvoShipment.zero with
    ID := .null
    ProjectFields := { Title := { DisplayID := "LD-7" }, ShipmentID := 0 } }

end Api

namespace ApiIndex

/-- The end of `handleCreateLoad` in `api/loads/index.go`:
`if id, ok := createdShipment["id"].(string); ok { load.ID = id }`.  A missing
key gives the nil interface, for which the assertion fails. -/
def overlayCreated (load : Load) (createdShipment : Api.CreatedShipment) : Load :=
  match createdShipment.lookup "id" with
  | some (.string id) => { load with ID := id }
  | _ => load

/-- A creation request as the client sends it: no id yet. -/
def requestLoad : Load :=
  { ID := "", Origin := "Dallas, TX", Destination := "Reno, NV", Customer := "Acme",
    Carrier := "SwiftCarrier", Status := "", CreatedAt := "" }

end ApiIndex

/-! ## Lemmas on the text helpers -/

theorem Go.splitChars_length (sep : Char) (cs : List Char) :
    (Go.splitChars sep cs).length = cs.count sep + 1 := by
  induction cs with
  | nil => simp [Go.splitChars]
  | cons c rest ih =>
    unfold Go.splitChars
    by_cases h : c = sep
    · subst h
      simp [ih]
    · simp only [h, if_false]
      cases hs : Go.splitChars sep rest with
      | nil => simp [hs] at ih
      | cons piece pieces =>
        rw [hs] at ih
        simp only [List.length_cons] at ih ⊢
        rw [List.count_cons_of_ne (Ne.symm h)]
        exact ih

theorem Go.Split_length (s : String) (sep : Char) :
    (Go.Split s sep).length = s.data.count sep + 1 := by
  simp [Go.Split, Go.splitChars_length]

theorem Go.splitChars_of_not_mem (sep : Char) (cs : List Char) (h : sep ∉ cs) :
    Go.splitChars sep cs = [cs] := by
  induction cs with
  | nil => simp [Go.splitChars]
  | cons c rest ih =>
    have hc : c ≠ sep := fun e => h (by simp [e])
    have hrest : sep ∉ rest := fun m => h (List.mem_cons_of_mem _ m)
    unfold Go.splitChars
    simp [hc, ih hrest]

theorem Go.splitChars_append_sep (sep : Char) (front back : List Char) (h : sep ∉ front) :
    Go.splitChars sep (front ++ sep :: back) = front :: Go.splitChars sep back := by
  induction front with
  | nil => simp [Go.splitChars]
  | cons c rest ih =>
    have hc : c ≠ sep := fun e => h (by simp [e])
    have hrest : sep ∉ rest := fun m => h (List.mem_cons_of_mem _ m)
    rw [List.cons_append]
    simp [Go.splitChars, hc, ih hrest]

theorem Go.dropWhile_of_head (p : Char → Bool) (cs : List Char)
    (h : ∀ c, cs.head? = some c → p c = false) : cs.dropWhile p = cs := by
  cases cs with
  | nil => rfl
  | cons c rest =>
    have hc : p c = false := h c rfl
    simp [List.dropWhile_cons, hc]

theorem Go.trimSpaceChars_space_cons (cs : List Char)
    (hlead : ∀ c, cs.head? = some c → Go.IsSpace c = false)
    (htrail : ∀ c, cs.getLast? = some c → Go.IsSpace c = false) :
    Go.trimSpaceChars (' ' :: cs) = cs := by
  unfold Go.trimSpaceChars
  have hspace : Go.IsSpace ' ' = true := by decide
  rw [List.dropWhile_cons_of_pos hspace, Go.dropWhile_of_head _ _ hlead,
    Go.dropWhile_of_head _ _ (by simpa using htrail), List.reverse_reverse]

/-! ## Lemmas on `api/loads.go` -/

namespace Api

theorem setCustomer_frame (orders : List CustomerOrder) (load : Load) :
    (setCustomer orders load).ID = load.ID ∧
    (setCustomer orders load).NumericID = load.NumericID ∧
    (setCustomer orders load).Origin = load.Origin ∧
    (setCustomer orders load).Destination = load.Destination ∧
    (setCustomer orders load).Carrier = load.Carrier ∧
    (setCustomer orders load).Status = load.Status ∧
    (setCustomer orders load).CreatedAt = load.CreatedAt := by
  cases orders <;> simp [setCustomer]

theorem setCarrier_frame (contributors : List Contributor) (load : Load) :
    (setCarrier contributors load).ID = load.ID ∧
    (setCarrier contributors load).NumericID = load.NumericID ∧
    (setCarrier contributors load).Origin = load.Origin ∧
    (setCarrier contributors load).Destination = load.Destination ∧
    (setCarrier contributors load).Customer = load.Customer ∧
    (setCarrier contributors load).Status = load.Status ∧
    (setCarrier contributors load).CreatedAt = load.CreatedAt := by
  induction contributors with
  | nil => simp [setCarrier]
  | cons c rest ih =>
    unfold setCarrier
    split
    · simp
    · exact ih

theorem setCarrier_Carrier (contributors : List Contributor) (load : Load) :
    (setCarrier contributors load).Carrier =
      match contributors.find? (fun c => c.Title.Value == "Broker") with
      | some c => c.ContributorUser.Name
      | none => load.Carrier := by
  induction contributors with
  | nil => simp [setCarrier]
  | cons c rest ih =>
    unfold setCarrier
    by_cases h : c.Title.Value = "Broker"
    · simp [h]
    · simp [h, ih]

theorem normalize_ID (shipment : TurvoShipment) :
    (normalize shipment).ID = shipment.ProjectFields.Title.DisplayID := by
  unfold normalize
  simp only [(setCarrier_frame _ _).1, (setCustomer_frame _ _).1]

theorem normalize_Origin (shipment : TurvoShipment) :
    (normalize shipment).Origin = shipment.Details.Lane.Start := by
  unfold normalize
  simp only [(setCarrier_frame _ _).2.2.1, (setCustomer_frame _ _).2.2.1]

theorem normalize_Destination (shipment : TurvoShipment) :
    (normalize shipment).Destination = shipment.Details.Lane.End := by
  unfold normalize
  simp only [(setCarrier_frame _ _).2.2.2.1, (setCustomer_frame _ _).2.2.2.1]

theorem normalize_Status (shipment : TurvoShipment) :
    (normalize shipment).Status = shipment.Details.Status.Description := by
  unfold normalize
  simp only [(setCarrier_frame _ _).2.2.2.2.2.1, (setCustomer_frame _ _).2.2.2.2.2.1]

theorem normalize_Carrier (shipment : TurvoShipment) :
    (normalize shipment).Carrier =
      match shipment.Details.Contributors.find? (fun c => c.Title.Value == "Broker") with
      | some c => c.ContributorUser.Name
      | none => "" := by
  unfold normalize
  simp only [setCarrier_Carrier, (setCustomer_frame _ _).2.2.2.2.1]

theorem findNumericId_eq_find (displayId : String) (shipments : List TurvoShipment) :
    findNumericId displayId shipments =
      match shipments.find? (fun r => r.ProjectFields.Title.DisplayID == displayId) with
      | none => ""
      | some r => sprintV r.ID := by
  induction shipments with
  | nil => simp [findNumericId]
  | cons r rest ih =>
    unfold findNumericId
    by_cases h : r.ProjectFields.Title.DisplayID = displayId
    · simp [h]
    · simp [h, ih]

theorem getLoadsLoop_elems (shipments : List TurvoShipment) (loads : Go.Slice Load) :
    Go.Slice.elems (getLoadsLoop shipments loads) =
      Go.Slice.elems loads ++ shipments.map normalize := by
  induction shipments generalizing loads with
  | nil => simp [getLoadsLoop]
  | cons r rest ih =>
    unfold getLoadsLoop
    rw [ih]
    simp [Go.Slice.push, Go.Slice.elems]

/-- The list handler of `api/loads.go` returns the normalisation of each record,
in listing order. -/
theorem handleGetLoads_elems (shipments : List TurvoShipment) :
    Go.Slice.elems (handleGetLoads shipments) = shipments.map normalize := by
  unfold handleGetLoads
  rw [getLoadsLoop_elems]
  simp [Go.Slice.elems]

/-- The ids of the Loads of `api/loads.go` are the display ids of the listing, in order. -/
theorem handleGetLoads_ids (shipments : List TurvoShipment) :
    (Go.Slice.elems (handleGetLoads shipments)).map (fun load => load.ID) =
      shipments.map (fun r => r.ProjectFields.Title.DisplayID) := by
  rw [handleGetLoads_elems]
  simp [normalize_ID]

end Api

/-! ## Lemmas on `api/loads/index.go` -/

namespace ApiIndex

theorem splitLocation_eq (location : String) :
    splitLocation location =
      if ',' ∈ location.data then
        some ((Go.Split location ',').getD 0 "", Go.TrimSpace ((Go.Split location ',').getD 1 ""))
      else none := by
  have hlen := Go.Split_length location ','
  unfold splitLocation
  cases hs : Go.Split location ',' with
  | nil => simp [hs] at hlen
  | cons a rest =>
    cases rest with
    | nil =>
      rw [hs] at hlen
      simp only [List.length_singleton] at hlen
      have h0 : location.data.count ',' = 0 := by omega
      have : ',' ∉ location.data := List.count_eq_zero.mp h0
      simp [this]
    | cons b rest2 =>
      rw [hs] at hlen
      simp only [List.length_cons] at hlen
      have h0 : 0 < location.data.count ',' := by omega
      have : ',' ∈ location.data := List.count_pos_iff.mp h0
      simp [this]

theorem setStops_frame (stops : List Stop) (load : Load) :
    (setStops stops load).ID = load.ID ∧
    (setStops stops load).Customer = load.Customer ∧
    (setStops stops load).Carrier = load.Carrier ∧
    (setStops stops load).Status = load.Status ∧
    (setStops stops load).CreatedAt = load.CreatedAt := by
  induction stops generalizing load with
  | nil => simp [setStops]
  | cons stop rest ih =>
    unfold setStops
    split
    · simp [ih]
    · split
      · simp [ih]
      · exact ih load

theorem setContributors_frame (contributors : List Contributor) (load : Load) :
    (setContributors contributors load).ID = load.ID ∧
    (setContributors contributors load).Origin = load.Origin ∧
    (setContributors contributors load).Destination = load.Destination ∧
    (setContributors contributors load).Status = load.Status ∧
    (setContributors contributors load).CreatedAt = load.CreatedAt := by
  induction contributors generalizing load with
  | nil => simp [setContributors]
  | cons c rest ih =>
    unfold setContributors
    split
    · simp [ih]
    · split
      · simp [ih]
      · exact ih load

theorem setStops_Origin (stops : List Stop) (load : Load) :
    (setStops stops load).Origin =
      match (stops.filter (fun stop => stop.Type_ == "pickup")).getLast? with
      | some stop => stop.Location.City ++ ", " ++ stop.Location.State
      | none => load.Origin := by
  induction stops generalizing load with
  | nil => simp [setStops]
  | cons stop rest ih =>
    unfold setStops
    by_cases hp : stop.Type_ = "pickup"
    · rw [if_pos hp, ih]
      simp only [hp, List.filter_cons, beq_self_eq_true, if_true, List.getLast?_cons]
      cases (List.filter (fun stop => stop.Type_ == "pickup") rest).getLast? <;> simp
    · by_cases hd : stop.Type_ = "delivery"
      · simp [hp, hd, ih, List.filter_cons]
      · simp [hp, hd, ih, List.filter_cons]

theorem setStops_Destination (stops : List Stop) (load : Load) :
    (setStops stops load).Destination =
      match (stops.filter (fun stop => stop.Type_ == "delivery")).getLast? with
      | some stop => stop.Location.City ++ ", " ++ stop.Location.State
      | none => load.Destination := by
  induction stops generalizing load with
  | nil => simp [setStops]
  | cons stop rest ih =>
    unfold setStops
    by_cases hp : stop.Type_ = "pickup"
    · simp [hp, ih, List.filter_cons]
    · by_cases hd : stop.Type_ = "delivery"
      · rw [if_neg hp, if_pos hd, ih]
        simp only [hd, List.filter_cons, beq_self_eq_true, if_true, List.getLast?_cons]
        cases (List.filter (fun stop => stop.Type_ == "delivery") rest).getLast? <;> simp
      · simp [hp, hd, ih, List.filter_cons]

theorem setContributors_Carrier (contributors : List Contributor) (load : Load) :
    (setContributors contributors load).Carrier =
      match (contributors.filter (fun c => c.Type_ == "carrier")).getLast? with
      | some c => c.Name
      | none => load.Carrier := by
  induction contributors generalizing load with
  | nil => simp [setContributors]
  | cons c rest ih =>
    unfold setContributors
    by_cases hc : c.Type_ = "customer"
    · simp [hc, ih, List.filter_cons]
    · by_cases hd : c.Type_ = "carrier"
      · rw [if_neg hc, if_pos hd, ih]
        simp only [hd, List.filter_cons, beq_self_eq_true, if_true, List.getLast?_cons]
        cases (List.filter (fun c => c.Type_ == "carrier") rest).getLast? <;> simp
      · simp [hc, hd, ih, List.filter_cons]

theorem normalize_index_Carrier (shipment : TurvoShipment) :
    (normalize shipment).Carrier =
      match (shipment.Details.Contributors.filter (fun c => c.Type_ == "carrier")).getLast? with
      | some c => c.Name
      | none => "" := by
  unfold normalize
  simp only [setContributors_Carrier, (setStops_frame _ _).2.2.1]

theorem normalize_index_Status (shipment : TurvoShipment) :
    (normalize shipment).Status = shipment.Status := by
  unfold normalize
  simp only [(setContributors_frame _ _).2.2.2.1, (setStops_frame _ _).2.2.2.1]

end ApiIndex

/-! ## Lemmas on `backend/main.go` -/

namespace Backend

theorem asObject_object (entries : Fields) : (JSON.object entries).asObject = some entries := rfl

theorem asFloat64_number (x : Go.Float64) : (JSON.number x).asFloat64 = some x := rfl

theorem customerFromOrders_eq (details : Fields) (customer : Customer) :
    customerFromOrders details customer =
      { Name :=
          ((index details "customer_orders").asArray.bind fun customerOrders =>
            customerOrders.head?.bind fun first =>
            first.asObject.bind fun firstOrder =>
            (index firstOrder "customer").asObject.bind fun customerObj =>
            (index customerObj "name").asString).getD customer.Name } := by
  cases customer with
  | mk current =>
    unfold customerFromOrders
    cases h1 : (index details "customer_orders").asArray with
    | none => simp
    | some customerOrders =>
      cases customerOrders with
      | nil => simp
      | cons first tail =>
        simp only [Option.some_bind, List.head?_cons]
        cases h2 : first.asObject with
        | none => simp
        | some firstOrder =>
          simp only [Option.some_bind]
          cases h3 : (index firstOrder "customer").asObject with
          | none => simp
          | some customerObj =>
            simp only [Option.some_bind]
            cases h4 : (index customerObj "name").asString <;> simp

theorem customerFallback_eq (s : Fields) (customer : Customer) :
    customerFallback s customer =
      if customer.Name = "Unknown" then
        { Name := (projectCustomerName s).getD customer.Name }
      else customer := by
  cases customer with
  | mk current =>
    unfold customerFallback projectCustomerName
    by_cases hc : current = "Unknown"
    · simp only [hc, if_true]
      cases h1 : (index s "projectFields").asObject with
      | none => simp
      | some projectFields =>
        simp only [Option.some_bind]
        cases h2 : (index projectFields "title").asObject with
        | none => simp
        | some title =>
          simp only [Option.some_bind]
          cases h3 : (index title "customer").asArray with
          | none => simp
          | some customers =>
            cases customers with
            | nil => simp
            | cons first tail =>
              simp only [Option.some_bind, List.head?_cons]
              cases h4 : first.asObject with
              | none => simp
              | some firstCustomer =>
                simp only [Option.some_bind]
                cases h5 : (index firstCustomer "name").asString <;> simp
    · simp [hc]

theorem normalize_Customer (s : Fields) (x : Go.Float64) (hid : index s "id" = .number x) :
    ∃ load, normalize (.object s) = some load ∧
      load.Customer.Name =
        match ordersCustomerName s with
        | some name => if name = "Unknown" then (projectCustomerName s).getD "Unknown" else name
        | none => (projectCustomerName s).getD "Unknown" := by
  unfold normalize
  simp only [asObject_object, hid, asFloat64_number]
  refine ⟨_, rfl, ?_⟩
  simp only [customerFallback_eq, ordersCustomerName]
  cases hd : (index s "details").asObject with
  | none => simp
  | some details =>
    simp only [customerFromOrders_eq, Option.some_bind]
    generalize ((index details "customer_orders").asArray.bind fun customerOrders =>
            customerOrders.head?.bind fun first =>
            first.asObject.bind fun firstOrder =>
            (index firstOrder "customer").asObject.bind fun customerObj =>
            (index customerObj "name").asString) = path1
    cases path1 with
    | none => simp
    | some name =>
      by_cases hn : name = "Unknown" <;> simp [hn]

theorem brokerStep_eq (broker : Broker) (contrib : JSON) :
    brokerStep broker contrib =
      match brokerNameOf contrib with
      | some name => { Name := name }
      | none => broker := by
  cases broker with
  | mk current =>
    unfold brokerStep brokerNameOf
    cases h1 : contrib.asObject with
    | none => simp
    | some c =>
      simp only [Option.some_bind]
      cases h2 : (index c "contributorUser").asObject with
      | none => simp
      | some contributorUser =>
        simp only [Option.some_bind]
        cases h3 : (index contributorUser "name").asString with
        | none => simp
        | some name =>
          simp only [Option.some_bind]
          cases h4 : (index c "title").asObject with
          | none => simp
          | some title =>
            simp only [Option.some_bind]
            cases h5 : (index title "value").asString with
            | none => simp
            | some role =>
              by_cases hr : role = "Broker" <;> simp [hr]

theorem foldl_brokerStep (contributors : List JSON) (broker : Broker) :
    (contributors.foldl brokerStep broker).Name =
      match (contributors.filterMap brokerNameOf).getLast? with
      | some name => name
      | none => broker.Name := by
  induction contributors generalizing broker with
  | nil => simp
  | cons contrib rest ih =>
    rw [List.foldl_cons, ih, brokerStep_eq, List.filterMap_cons]
    cases hb : brokerNameOf contrib with
    | none => simp
    | some name =>
      simp only [List.getLast?_cons]
      cases (List.filterMap brokerNameOf rest).getLast? <;> simp

theorem normalize_Broker (s : Fields) (x : Go.Float64) (hid : index s "id" = .number x) :
    ∃ load, normalize (.object s) = some load ∧
      load.Broker.Name =
        match ((contributorsOf s).filterMap brokerNameOf).getLast? with
        | some name => name
        | none => "Unknown" := by
  unfold normalize
  simp only [asObject_object, hid, asFloat64_number]
  refine ⟨_, rfl, ?_⟩
  unfold contributorsOf
  cases hd : (index s "details").asObject with
  | none => simp
  | some details =>
    simp only [brokerFromContributors]
    cases hc : (index details "contributors").asArray with
    | none => simp
    | some contributors => simp [foldl_brokerStep]

theorem listLoop_some (shipments : List JSON) (acc loads : Go.Slice Load)
    (h : listLoop shipments acc = some loads) :
    ∃ tail : List Load,
      Go.Slice.elems loads = Go.Slice.elems acc ++ tail ∧
      List.Forall₂ (fun r load => normalize r = some load) shipments tail := by
  induction shipments generalizing acc with
  | nil =>
    simp only [listLoop, Option.some.injEq] at h
    exact ⟨[], by simp [h], List.Forall₂.nil⟩
  | cons r rest ih =>
    unfold listLoop at h
    cases hr : normalize r with
    | none => simp [hr] at h
    | some load =>
      simp only [hr] at h
      obtain ⟨tail, h1, h2⟩ := ih _ h
      refine ⟨load :: tail, ?_, List.Forall₂.cons hr h2⟩
      rw [h1]
      simp [Go.Slice.push, Go.Slice.elems]

/-- Whenever `listLoads` of `backend/main.go` returns, it returns one Load per
record of the listing, in listing order. -/
theorem listLoads_order (turvoResponse : Fields) (shipments : List JSON)
    (loads : Go.Slice Load)
    (hlisting : index turvoResponse "shipments" = .array shipments)
    (h : listLoads turvoResponse = some loads) :
    List.Forall₂ (fun r load => normalize r = some load) shipments (Go.Slice.elems loads) := by
  unfold listLoads at h
  simp only [hlisting, JSON.asArray] at h
  obtain ⟨tail, h1, h2⟩ := listLoop_some _ _ _ h
  simp only [Go.Slice.elems, Option.getD_some, List.nil_append] at h1
  simpa [Go.Slice.elems, h1] using h2

end Backend

/-! ## C1: identifier resolution in the delete path -/

/-- C1, the claim as stated fails: in the listing that holds only a record with
display id `"LD-7"` and top-level id `""`, that record is the first one matching
the request `"LD-7"`, yet the result is NotFound and not the internal id `""`;
and for the empty request the result is the 400 answer, neither NotFound (on
the empty listing) nor the internal id of the record without display id. -/
theorem resolve_empty_internal_id_is_notFound :
    [Api.emptyIdShipment].find? (fun r => r.ProjectFields.Title.DisplayID == "LD-7")
        = some Api.emptyIdShipment ∧
    Api.resolve "LD-7" [Api.emptyIdShipment]
        = .notFound "Shipment not found for displayId: LD-7" ∧
    Api.resolve "LD-7" [Api.emptyIdShipment] ≠ .found (Api.sprintV Api.emptyIdShipment.ID) ∧
    Api.resolve "" [] = .badRequest "ID parameter required" ∧
    Api.resolve "" [Api.noDisplayIdShipment] = .badRequest "ID parameter required" := by
  decide

/-- C1, amended: the empty requested display id is answered with 400 before any
listing is looked at.  For every non-empty requested display id and every
listing, the result is NotFound when no record (in particular of an empty
listing) has the requested display id, and also when the first record that has
it carries an internal id that renders to the empty string; otherwise it is
the internal id (the top-level id rendered with `%v`) of the first record, in
listing order, whose display id equals the request.  For the scenario listing
and `"LD-7"` the result is `"99"`. -/
theorem resolve_first_match :
    (∀ (displayId : String) (shipments : List Api.TurvoShipment),
      Api.resolve displayId shipments =
        if displayId = "" then
          .badRequest "ID parameter required"
        else
          match shipments.find? (fun r => r.ProjectFields.Title.DisplayID == displayId) with
          | none => .notFound ("Shipment not found for displayId: " ++ displayId)
          | some r =>
            if Api.sprintV r.ID = "" then
              .notFound ("Shipment not found for displayId: " ++ displayId)
            else
              .found (Api.sprintV r.ID)) ∧
    (∀ displayId : String,
      Api.resolve displayId [] =
        if displayId = "" then
          .badRequest "ID parameter required"
        else
          .notFound ("Shipment not found for displayId: " ++ displayId)) ∧
    Api.resolve "LD-7" [Api.scenarioShipment] = .found "99" := by
  refine ⟨?_, ?_, by decide⟩
  · intro displayId shipments
    unfold Api.resolve
    by_cases hd : displayId = ""
    · simp [hd]
    · rw [if_neg hd, if_neg hd, Api.findNumericId_eq_find]
      cases shipments.find? (fun r => r.ProjectFields.Title.DisplayID == displayId) with
      | none => simp
      | some r => simp
  · intro displayId
    by_cases hd : displayId = ""
    · simp [Api.resolve, hd]
    · simp [Api.resolve, Api.findNumericId, hd]

/-! ## C2: the end-to-end normalisation scenario -/

/-- C2, the claim as stated fails: with `title`, `lane`, `customer_orders`,
`contributors` and `status` at top level, where the claim writes them, the
decoded record has the id `"99"` and nothing else, and its Load has the empty
id, origin, destination, customer, carrier and status. -/
theorem normalize_flat_scenario :
    Api.normalize Api.flatScenarioShipment =
      { ID := "", NumericID := "0", Origin := "", Destination := "", Customer := "",
        Carrier := "", Status := "", CreatedAt := "" } ∧
    (Api.normalize Api.flatScenarioShipment).ID ≠ "LD-7" ∧
    (Api.normalize Api.flatScenarioShipment).Status ≠ "In Transit" := by
  decide

/-- C2, amended: normalising the scenario record with its values at the paths
the struct reads (id `"99"`; `projectFields.title.displayId` `"LD-7"`;
`details.lane` from `"Dallas, TX"` to `"Reno, NV"`; `details.customer_orders`
with the customer `"Acme"`; `details.contributors` with `"SwiftCarrier"`
titled `"Broker"`; `details.status.description` `"In Transit"`) yields the
Load with id `"LD-7"`, origin `"Dallas, TX"`, destination `"Reno, NV"`,
customer `"Acme"`, carrier `"SwiftCarrier"` and status `"In Transit"`. -/
theorem normalize_scenario :
    Api.normalize Api.scenarioShipment =
      { ID := "LD-7", NumericID := "0", Origin := "Dallas, TX", Destination := "Reno, NV",
        Customer := "Acme", Carrier := "SwiftCarrier", Status := "In Transit",
        CreatedAt := "" } := by
  decide

/-! ## C3: records with every optional field missing -/

/-- C3, the claim as stated fails: the list handlers of `api/loads.go` and of
`api/loads/index.go` give the record with no field at all the status `""`, not
`"Unknown"`. -/
theorem normalize_zero_status_not_unknown :
    (Api.normalize Api.TurvoShipment.zero).Status = "" ∧
    (Api.normalize Api.TurvoShipment.zero).Status ≠ "Unknown" ∧
    (ApiIndex.normalize ApiIndex.TurvoShipment.zero).Status = "" ∧
    (ApiIndex.normalize ApiIndex.TurvoShipment.zero).Status ≠ "Unknown" := by
  decide

/-- C3, amended: for every shipment record in which every optional field is
missing, normalisation completes without a fault and yields a Load whose string
fields are all present.  In `api/loads.go` and `api/loads/index.go`, where every
field is optional and the status is copied as decoded, the status is the empty
string (and the numeric id prints as `"0"`); in `backend/main.go`, for a record
that is an object with a numeric `id` and neither `details` nor
`projectFields`, the status is exactly `"Unknown"`. -/
theorem normalize_all_optional_missing (s : Backend.Fields) (x : Go.Float64)
    (hid : Backend.index s "id" = .number x)
    (hdetails : Backend.index s "details" = .null)
    (hproject : Backend.index s "projectFields" = .null) :
    (∀ shipment : Api.TurvoShipment,
      (Api.normalize shipment).Status = shipment.Details.Status.Description) ∧
    (∀ shipment : ApiIndex.TurvoShipment,
      (ApiIndex.normalize shipment).Status = shipment.Status) ∧
    Api.normalize Api.TurvoShipment.zero =
      { ID := "", NumericID := "0", Origin := "", Destination := "", Customer := "",
        Carrier := "", Status := "", CreatedAt := "" } ∧
    ApiIndex.normalize ApiIndex.TurvoShipment.zero =
      { ID := "", Origin := "", Destination := "", Customer := "", Carrier := "",
        Status := "", CreatedAt := "" } ∧
    Backend.normalize (.object s) =
      some
        { ExternalTMSLoadID := x.fmt0f
          FreightLoadID := ""
          Status := "Unknown"
          Customer := { Name := "Unknown" }
          Pickup := { Name := "", City := "Unknown", State := "", Country := "" }
          Consignee := { Name := "", City := "Unknown", State := "", Country := "" }
          Broker := { Name := "Unknown" }
          Specifications :=
            { TotalWeight := { fmt0f := "0", fmtV := "0" }
              NumCommodities := 0
              RouteMiles := { fmt0f := "0", fmtV := "0" } } } := by
  refine ⟨Api.normalize_Status, ApiIndex.normalize_index_Status, by decide, by decide, ?_⟩
  simp [Backend.normalize, Backend.JSON.asObject, Backend.JSON.asFloat64, hid, hdetails,
    hproject, Backend.customerFallback, Backend.routeOf, Backend.statusOf,
    Backend.locationOfCity, Backend.zeroFloat]

/-- Witness of C3: the record `{"id": 99}`. -/
theorem normalize_all_optional_missing_witness :
    Backend.normalize (.object [("id", .number { fmt0f := "99", fmtV := "99" })]) =
      some
        { ExternalTMSLoadID := "99"
          FreightLoadID := ""
          Status := "Unknown"
          Customer := { Name := "Unknown" }
          Pickup := { Name := "", City := "Unknown", State := "", Country := "" }
          Consignee := { Name := "", City := "Unknown", State := "", Country := "" }
          Broker := { Name := "Unknown" }
          Specifications :=
            { TotalWeight := { fmt0f := "0", fmtV := "0" }
              NumCommodities := 0
              RouteMiles := { fmt0f := "0", fmtV := "0" } } } :=
  (normalize_all_optional_missing [("id", .number { fmt0f := "99", fmtV := "99" })]
    { fmt0f := "99", fmtV := "99" } rfl rfl rfl).2.2.2.2

/-! ## C4: listing order -/

/-- C4, evaluation at the failing input: on the listing whose three records have
the ids `"A"`, `"B"`, `"C"` (JSON strings), `listLoads` of `backend/main.go`
panics at `s["id"].(float64)` and returns no Load at all, while on the ids
`1, 2, 3` it returns the three Loads in listing order. -/
theorem listLoads_string_ids_panics :
    Backend.listLoads Backend.stringIdResponse = none ∧
    (Backend.listLoads Backend.numericIdResponse).map
        (fun loads => (Go.Slice.elems loads).map (fun load => load.ExternalTMSLoadID))
      = some ["1", "2", "3"] := by
  decide

/-! ## C5: the creation payload -/

/-- C5: for every creation input, the payload of `handleCreateLoad`
(`api/loads.go`) and of `createLoad` (`backend/main.go`) has `ltlShipment`
false, a start and an end date both paired with the time zone
`"America/New_York"`, a lane with start and end, exactly one customer order
whose customer name and id are the input customer and whose single item is the
constant "General Freight" item, and an empty carrier order list. -/
theorem create_payload_shape (load : Api.Load) (startText endText : String)
    (req : Backend.CreateLoadRequest) :
    (Api.buildPayload load startText endText).ltlShipment = false ∧
    (Api.buildPayload load startText endText).startDate =
      { date := startText, timeZone := "America/New_York" } ∧
    (Api.buildPayload load startText endText).endDate =
      { date := endText, timeZone := "America/New_York" } ∧
    (Api.buildPayload load startText endText).lane =
      { start := load.Origin, end_ := load.Destination } ∧
    (Api.buildPayload load startText endText).customerOrder =
      [ { customer := { name := load.Customer, id := load.Customer }
          items :=
            [ { name := "General Freight", description := "General freight", qty := 1,
                quantity := 1, unit := { key := "6000", value := "Pieces" },
                itemCategory := { key := "22300", value := "Other" } } ] } ] ∧
    (Api.buildPayload load startText endText).carrierOrder = [] ∧
    (Backend.buildPayload req).ltlShipment = false ∧
    (Backend.buildPayload req).startDate =
      { date := "2025-09-05T08:00:00Z", timeZone := "America/New_York" } ∧
    (Backend.buildPayload req).endDate =
      { date := "2025-09-06T17:00:00Z", timeZone := "America/New_York" } ∧
    (Backend.buildPayload req).lane =
      { start := req.Pickup ++ ", " ++ req.PickupState ++ ", " ++ req.PickupCountry
        end_ := req.Delivery ++ ", " ++ req.DeliveryState ++ ", " ++ req.DeliveryCountry } ∧
    (Backend.buildPayload req).customerOrder =
      [ { customer := { name := req.Customer, id := req.Customer }
          items :=
            [ { name := "General Freight", description := "General freight", qty := 1,
                quantity := 1, unit := { key := "6000", value := "Pieces" },
                itemCategory := { key := "22300", value := "Other" } } ] } ] ∧
    (Backend.buildPayload req).carrierOrder = [] := by
  simp [Api.buildPayload, Backend.buildPayload]

/-! ## C6: decomposition of composite locations -/

/-- C6, the claim as stated fails: an origin with four comma-separated segments
(and equally one with the three segments `"Dallas, TX, USA"`) gives no error; a
payload is produced from the first two segments and the rest is dropped. -/
theorem buildShipmentData_truncates :
    (Go.Split ApiIndex.fourSegmentLoad.Origin ',').length = 4 ∧
    ApiIndex.buildShipmentData ApiIndex.fourSegmentLoad "2025-01-01T00:00:00Z" =
      some
        { stops :=
            [ { type := "pickup", city := "Dallas", state := "TX" },
              { type := "delivery", city := "Reno", state := "NV" } ]
          contributors :=
            [ { type := "customer", name := "Acme" }, { type := "carrier", name := "SwiftCarrier" } ]
          status := "active"
          createdAt := "2025-01-01T00:00:00Z" } ∧
    (Go.Split ApiIndex.threeSegmentLoad.Origin ',').length = 3 ∧
    ApiIndex.buildShipmentData ApiIndex.threeSegmentLoad "2025-01-01T00:00:00Z" =
      ApiIndex.buildShipmentData ApiIndex.fourSegmentLoad "2025-01-01T00:00:00Z" := by
  decide

/-- C6, amended: for every Load whose origin or destination contains no comma,
building `shipmentData` panics (index out of range) and produces no payload;
for every other Load a payload is produced whose stops take segment 0 of the
comma split as city and the trimmed segment 1 as state, whatever follows
segment 1 being dropped. -/
theorem buildShipmentData_eq (load : ApiIndex.Load) (now : String) :
    ApiIndex.buildShipmentData load now =
      if ',' ∈ load.Origin.data ∧ ',' ∈ load.Destination.data then
        some
          { stops :=
              [ { type := "pickup"
                  city := (Go.Split load.Origin ',').getD 0 ""
                  state := Go.TrimSpace ((Go.Split load.Origin ',').getD 1 "") },
                { type := "delivery"
                  city := (Go.Split load.Destination ',').getD 0 ""
                  state := Go.TrimSpace ((Go.Split load.Destination ',').getD 1 "") } ]
            contributors :=
              [ { type := "customer", name := load.Customer },
                { type := "carrier", name := load.Carrier } ]
            status := "active"
            createdAt := now }
      else none := by
  unfold ApiIndex.buildShipmentData
  rw [ApiIndex.splitLocation_eq, ApiIndex.splitLocation_eq]
  by_cases ho : ',' ∈ load.Origin.data <;> by_cases hd : ',' ∈ load.Destination.data <;>
    simp [ho, hd]

/-! ## C7: round trip of the lane fields -/

/-- C7: for every shipment record, the payload built from the Load obtained by
normalising the record has the record's lane start and lane end, which are the
origin and destination of that Load. -/
theorem lane_round_trip (shipment : Api.TurvoShipment) (startText endText : String) :
    (Api.buildPayload (Api.normalize shipment) startText endText).lane =
      { start := shipment.Details.Lane.Start, end_ := shipment.Details.Lane.End } ∧
    (Api.buildPayload (Api.normalize shipment) startText endText).lane.start =
      (Api.normalize shipment).Origin ∧
    (Api.buildPayload (Api.normalize shipment) startText endText).lane.end_ =
      (Api.normalize shipment).Destination := by
  simp [Api.buildPayload, Api.normalize_Origin, Api.normalize_Destination]

/-! ## C8: the customer fallback chain -/

/-- C8, the claim as stated fails: for the record `{"id": 7}`, where no path
yields a value, the customer is `"Unknown"` and not the empty string; and for a
record whose customer-orders path yields the empty string while the
project-level path yields `"Acme"`, the customer is the empty string and not
the first non-empty result `"Acme"`. -/
theorem customer_default_is_unknown :
    (Backend.normalize Backend.noCustomerRecord).map (fun load => load.Customer.Name)
      = some "Unknown" ∧
    (Backend.normalize Backend.noCustomerRecord).map (fun load => load.Customer.Name)
      ≠ some "" ∧
    (Backend.normalize Backend.emptyOrderNameRecord).map (fun load => load.Customer.Name)
      = some "" := by
  decide

/-- C8, amended: for every shipment record (an object with a numeric id), the
customer name of the normalised Load is the result of path (1), the name of the
customer of the first entry of the customer-orders list, when that path yields
a string other than `"Unknown"` (the empty string included); otherwise it is
the result of path (3), the name of the first entry of the project-level
title/customer list, when that path yields a string; otherwise it is
`"Unknown"`.  So a record for which only the project-level path is available
gets that value, and a record for which no path yields a value gets
`"Unknown"`. -/
theorem customer_fallback_chain (s : Backend.Fields) (x : Go.Float64)
    (hid : Backend.index s "id" = .number x) :
    ∃ load, Backend.normalize (.object s) = some load ∧
      load.Customer.Name =
        match Backend.ordersCustomerName s with
        | some name =>
          if name = "Unknown" then (Backend.projectCustomerName s).getD "Unknown" else name
        | none => (Backend.projectCustomerName s).getD "Unknown" :=
  Backend.normalize_Customer s x hid

/-- Witness of C8: a record for which only the project-level path is available. -/
theorem customer_fallback_chain_witness :
    Backend.index Backend.projectOnlyRecord "id" = .number { fmt0f := "7", fmtV := "7" } ∧
    Backend.ordersCustomerName Backend.projectOnlyRecord = none ∧
    Backend.projectCustomerName Backend.projectOnlyRecord = some "Acme" ∧
    ∃ load, Backend.normalize (.object Backend.projectOnlyRecord) = some load ∧
      load.Customer.Name = "Acme" := by
  refine ⟨rfl, by decide, by decide, ?_⟩
  obtain ⟨load, h1, h2⟩ :=
    customer_fallback_chain Backend.projectOnlyRecord { fmt0f := "7", fmtV := "7" } rfl
  exact ⟨load, h1, h2.trans (by decide)⟩

/-! ## C9: carrier extraction -/

/-- C9, the claim as stated fails: with two contributors titled `"Broker"`
(resp. of type `"carrier"`) named `"First"` and `"Second"`, in that order, the
first matching contributor is `"First"`, yet `backend/main.go` and
`api/loads/index.go`, whose loops have no `break`, end with `"Second"`. -/
theorem carrier_not_first_match :
    (Backend.contributorsOf Backend.twoBrokersRecord).filterMap Backend.brokerNameOf
      = ["First", "Second"] ∧
    (Backend.normalize (.object Backend.twoBrokersRecord)).map (fun load => load.Broker.Name)
      = some "Second" ∧
    ApiIndex.twoCarriersShipment.Details.Contributors.find? (fun c => c.Type_ == "carrier")
      = some { Type_ := "carrier", Name := "First" } ∧
    (ApiIndex.normalize ApiIndex.twoCarriersShipment).Carrier = "Second" ∧
    (ApiIndex.normalize ApiIndex.twoCarriersShipment).Carrier ≠ "First" := by
  decide

/-- C9, amended: for every contributors list, the carrier name of the normalised
Load is, in `api/loads.go`, the name of the first contributor, in list order,
whose title value is exactly `"Broker"`; in `backend/main.go` (for a record
that is an object with a numeric id), the name of the last contributor that has
a string name and whose title value is exactly `"Broker"`; in
`api/loads/index.go`, the name of the last contributor whose type is exactly
`"carrier"`.  When no contributor matches, the carrier is left at its default,
`""` in the two api handlers and `"Unknown"` in `backend/main.go`. -/
theorem carrier_extraction (shipment : Api.TurvoShipment) (indexShipment : ApiIndex.TurvoShipment)
    (s : Backend.Fields) (x : Go.Float64) (hid : Backend.index s "id" = .number x) :
    ((Api.normalize shipment).Carrier =
      match shipment.Details.Contributors.find? (fun c => c.Title.Value == "Broker") with
      | some c => c.ContributorUser.Name
      | none => "") ∧
    ((ApiIndex.normalize indexShipment).Carrier =
      match (indexShipment.Details.Contributors.filter
          (fun c => c.Type_ == "carrier")).getLast? with
      | some c => c.Name
      | none => "") ∧
    ∃ load, Backend.normalize (.object s) = some load ∧
      load.Broker.Name =
        match ((Backend.contributorsOf s).filterMap Backend.brokerNameOf).getLast? with
        | some name => name
        | none => "Unknown" :=
  ⟨Api.normalize_Carrier shipment, ApiIndex.normalize_index_Carrier indexShipment,
    Backend.normalize_Broker s x hid⟩

/-- Witness of C9: the scenario record for `api/loads.go`, and the records with
two matching contributors for the other two handlers. -/
theorem carrier_extraction_witness :
    Backend.index Backend.twoBrokersRecord "id" = .number { fmt0f := "7", fmtV := "7" } ∧
    (Api.normalize Api.twoBrokersShipment).Carrier = "First" ∧
    (ApiIndex.normalize ApiIndex.twoCarriersShipment).Carrier = "Second" ∧
    ∃ load, Backend.normalize (.object Backend.twoBrokersRecord) = some load ∧
      load.Broker.Name = "Second" := by
  have h := carrier_extraction Api.twoBrokersShipment ApiIndex.twoCarriersShipment
    Backend.twoBrokersRecord { fmt0f := "7", fmtV := "7" } rfl
  obtain ⟨h1, h2, load, h3, h4⟩ := h
  exact ⟨rfl, h1.trans (by decide), h2.trans (by decide), load, h3, h4.trans (by decide)⟩

/-! ## C10: lane endpoints from a stop list -/

/-- C10, the claim as stated fails: with the stops pickup Dallas, pickup Austin,
delivery Reno, delivery Elko, the first pickup stop is Dallas and the first
delivery stop is Reno, yet the origin is `"Austin, TX"` and the destination
`"Elko, NV"`. -/
theorem lane_endpoints_not_first_stop :
    ApiIndex.twoPickupsShipment.Details.Stops.find? (fun stop => stop.Type_ == "pickup")
      = some { Type_ := "pickup", Location := { City := "Dallas", State := "TX" } } ∧
    ApiIndex.twoPickupsShipment.Details.Stops.find? (fun stop => stop.Type_ == "delivery")
      = some { Type_ := "delivery", Location := { City := "Reno", State := "NV" } } ∧
    (ApiIndex.normalize ApiIndex.twoPickupsShipment).Origin = "Austin, TX" ∧
    (ApiIndex.normalize ApiIndex.twoPickupsShipment).Origin ≠ "Dallas, TX" ∧
    (ApiIndex.normalize ApiIndex.twoPickupsShipment).Destination = "Elko, NV" ∧
    (ApiIndex.normalize ApiIndex.twoPickupsShipment).Destination ≠ "Reno, NV" := by
  decide

/-- C10, amended: for every ordered list of stops, the origin is
`city ++ ", " ++ state` of the last stop whose type is `"pickup"` and the
destination is that of the last stop whose type is `"delivery"`; a type with no
stop leaves that endpoint empty. -/
theorem lane_endpoints_last_stop (shipment : ApiIndex.TurvoShipment) :
    (ApiIndex.normalize shipment).Origin =
      (match (shipment.Details.Stops.filter (fun stop => stop.Type_ == "pickup")).getLast? with
        | some stop => stop.Location.City ++ ", " ++ stop.Location.State
        | none => "") ∧
    (ApiIndex.normalize shipment).Destination =
      (match (shipment.Details.Stops.filter (fun stop => stop.Type_ == "delivery")).getLast? with
        | some stop => stop.Location.City ++ ", " ++ stop.Location.State
        | none => "") := by
  unfold ApiIndex.normalize
  simp only [(ApiIndex.setContributors_frame _ _).2.1, (ApiIndex.setContributors_frame _ _).2.2.1,
    ApiIndex.setStops_Origin, ApiIndex.setStops_Destination]
  exact ⟨trivial, trivial⟩
/-! ## C11: the result of a creation -/

/-- C11, the claim as stated fails: in `api/loads/index.go` a response without
an id leaves the request's empty id (no temporary id is made), and a response
whose id is the number 42 is not taken over either; in `api/loads.go` a
response whose id is the empty string gives the empty id. -/
theorem create_id_can_be_empty :
    (ApiIndex.overlayCreated ApiIndex.requestLoad []).ID = "" ∧
    (ApiIndex.overlayCreated ApiIndex.requestLoad
        [("id", .number { fmt0f := "42", fmtV := "42" })]).ID = "" ∧
    (Api.createAnswer Api.requestLoad 200 [("id", .string "")] 1700000000
        "2023-11-14T22:13:20Z").map (fun load => load.ID) = some "" := by
  decide

/-- C11, amended: for every creation request and every collaborator response,
the Load returned by `api/loads.go` exists exactly when the status is 200 or
201; it keeps the request's origin, destination, customer and carrier (and
numeric id), has status `"active"` and the current time, and its id is the
`%v` text of the value under `"id"` when the response has that key (the empty
text for the empty string) and otherwise `"temp-"` followed by the Unix time,
which is never empty.  The Load returned by `api/loads/index.go` is the
request with its id replaced by the response's id when that is a JSON string,
and the request unchanged, with its own id, otherwise. -/
theorem create_result (load : Api.Load) (statusCode : Int)
    (createdShipment : Api.CreatedShipment) (unix : Int) (now : String)
    (indexLoad : ApiIndex.Load) :
    Api.createAnswer load statusCode createdShipment unix now =
      (if statusCode = 200 ∨ statusCode = 201 then
        some
          { ID :=
              match createdShipment.lookup "id" with
              | some id => Api.sprintV id
              | none => "temp-" ++ Go.sprintD unix
            NumericID := load.NumericID
            Origin := load.Origin
            Destination := load.Destination
            Customer := load.Customer
            Carrier := load.Carrier
            Status := "active"
            CreatedAt := now }
      else none) ∧
    "temp-" ++ Go.sprintD unix ≠ "" ∧
    ApiIndex.overlayCreated indexLoad createdShipment =
      { ID :=
          match createdShipment.lookup "id" with
          | some (.string id) => id
          | _ => indexLoad.ID
        Origin := indexLoad.Origin
        Destination := indexLoad.Destination
        Customer := indexLoad.Customer
        Carrier := indexLoad.Carrier
        Status := indexLoad.Status
        CreatedAt := indexLoad.CreatedAt } := by
  refine ⟨?_, ?_, ?_⟩
  · unfold Api.createAnswer Api.overlayCreated
    by_cases h1 : statusCode = 200
    · cases h : createdShipment.lookup "id" <;> simp [h1]
    · by_cases h2 : statusCode = 201
      · cases h : createdShipment.lookup "id" <;> simp [h2]
      · simp [h1, h2]
  · intro h
    have hdata : ("temp-" ++ Go.sprintD unix).data = [] := congrArg String.data h
    rw [String.data_append] at hdata
    exact absurd (List.append_eq_nil.mp hdata).1 (by decide)
  · unfold ApiIndex.overlayCreated
    cases h : createdShipment.lookup "id" with
    | none => simp
    | some id => cases id <;> simp

/-! ## C12: the answer for an empty listing -/

/-- C12, evaluation at the failing input: for the empty listing the list
handlers of `api/loads.go` and `api/loads/index.go` encode the nil slice of
`var loads []Load`, which is written as `null`, while `listLoads` of
`backend/main.go`, which starts from `make([]Load, 0)`, returns a non-nil
collection of length 0. -/
theorem empty_listing_is_nil_slice :
    Api.handleGetLoads [] = none ∧
    Go.Slice.encodesAsNull (Api.handleGetLoads []) = true ∧
    ApiIndex.handleGetLoads [] = none ∧
    Go.Slice.encodesAsNull (ApiIndex.handleGetLoads []) = true ∧
    Backend.listLoads [("shipments", .array [])] = some (some []) ∧
    Backend.listLoads [] = some (some []) := by
  decide

/-! ## C13: a matching record without internal id -/

/-- C13, the claim as stated fails: for the listing whose only record has
display id `"LD-7"` and the empty internal id, the outcome, message included,
is the one of the listing with no record at all; and when the internal id is
absent, it renders as `"<nil>"` and the resolver hands that text on as the id
to delete. -/
theorem empty_id_diagnostic_not_distinct :
    Api.resolve "LD-7" [Api.emptyIdShipment] = Api.resolve "LD-7" [] ∧
    Api.resolve "LD-7" [Api.emptyIdShipment]
      = .notFound "Shipment not found for displayId: LD-7" ∧
    Api.resolve "LD-7" [Api.absentIdShipment] = .found "<nil>" := by
  decide

/-- C13, amended: for every non-empty requested display id and every listing
whose first record matching it has an internal identifier that renders to the
empty string, the outcome is NotFound (no delete is issued), with the same
diagnostic as the one produced when no record matches at all. -/
theorem resolve_empty_id_same_diagnostic (displayId : String)
    (shipments : List Api.TurvoShipment) (r : Api.TurvoShipment)
    (hrequest : displayId ≠ "")
    (hfirst : shipments.find? (fun q => q.ProjectFields.Title.DisplayID == displayId) = some r)
    (hempty : Api.sprintV r.ID = "") :
    Api.resolve displayId shipments
      = .notFound ("Shipment not found for displayId: " ++ displayId) ∧
    Api.resolve displayId shipments = Api.resolve displayId [] := by
  have h : Api.resolve displayId shipments
      = .notFound ("Shipment not found for displayId: " ++ displayId) := by
    unfold Api.resolve
    rw [if_neg hrequest, Api.findNumericId_eq_find, hfirst]
    simp [hempty]
  refine ⟨h, ?_⟩
  rw [h]
  simp [Api.resolve, Api.findNumericId, hrequest]

/-- Witness of C13: the request `"LD-7"` on the listing with the single record
of display id `"LD-7"` and internal id `""`. -/
theorem resolve_empty_id_same_diagnostic_witness :
    Api.resolve "LD-7" [Api.emptyIdShipment]
      = .notFound ("Shipment not found for displayId: " ++ "LD-7") ∧
    Api.resolve "LD-7" [Api.emptyIdShipment] = Api.resolve "LD-7" [] :=
  resolve_empty_id_same_diagnostic "LD-7" [Api.emptyIdShipment] Api.emptyIdShipment
    (by decide) (by decide) (by decide)

/-! ## C14: round trip of a formatted stop location -/

/-- C14: for every city without comma and every state without comma and
without leading or trailing white space, the list handler formats the stop as
`city ++ ", " ++ state`, and decomposing that text the way the create handler
does (segment 0 of the comma split, trimmed segment 1) returns the original
city and state, without a fault. -/
theorem stop_location_round_trip (city state : String) (load : ApiIndex.Load)
    (hcity : ',' ∉ city.data) (hstate : ',' ∉ state.data)
    (hlead : ∀ c, state.data.head? = some c → Go.IsSpace c = false)
    (htrail : ∀ c, state.data.getLast? = some c → Go.IsSpace c = false) :
    (ApiIndex.setStops
        [{ Type_ := "pickup", Location := { City := city, State := state } }] load).Origin
      = city ++ ", " ++ state ∧
    (ApiIndex.setStops
        [{ Type_ := "delivery", Location := { City := city, State := state } }] load).Destination
      = city ++ ", " ++ state ∧
    ApiIndex.splitLocation (city ++ ", " ++ state) = some (city, state) := by
  refine ⟨by simp [ApiIndex.setStops], by simp [ApiIndex.setStops], ?_⟩
  have hdata : (city ++ ", " ++ state).data = city.data ++ ',' :: (' ' :: state.data) := by
    simp [String.data_append]
  have hspace : ',' ∉ ' ' :: state.data := by
    intro hm
    rcases List.mem_cons.mp hm with h | h
    · exact absurd h (by decide)
    · exact hstate h
  have hsplit : Go.Split (city ++ ", " ++ state) ',' = [city, String.mk (' ' :: state.data)] := by
    unfold Go.Split
    rw [hdata, Go.splitChars_append_sep _ _ _ hcity, Go.splitChars_of_not_mem _ _ hspace]
    rfl
  unfold ApiIndex.splitLocation
  rw [hsplit]
  simp [Go.TrimSpace, Go.trimSpaceChars_space_cons _ hlead htrail]

/-- Witness of C14: the stop Dallas, TX. -/
theorem stop_location_round_trip_witness :
    ApiIndex.splitLocation ("Dallas" ++ ", " ++ "TX") = some ("Dallas", "TX") :=
  (stop_location_round_trip "Dallas" "TX" ApiIndex.requestLoad (by decide) (by decide)
    (by decide) (by decide)).2.2
